import Mathlib

/-!
Shallow embedding of the AD5253/AD5254 digital-potentiometer driver
(`AD525x/AD525x.cpp` together with its headers `AD525x.h`,
`AD525x_Errors.h`).  Machine bytes are modelled as `Nat`; the C++
`float` tolerance computation is modelled over `ℚ` (every intermediate
value in the decode is a multiple of `2 ^ (-8)` with magnitude below
`2 ^ 8`, hence exactly representable in single precision, so the
rational computation coincides with the IEEE one).  The two-wire
transport (the `Wire` library) is an external collaborator; it is
modelled as an oracle `I2CBus` supplying the error code of each write
transaction and the bytes and error code of each read request, and
every operation additionally returns the list of bus transactions it
issued.
-/

set_option autoImplicit false

/-- Error codes from `AD525x_Errors.h`. -/
def EC_NO_ERR : Nat := 0

/-- Data too long to fit in transmit buffer. -/
def EC_DATA_LONG : Nat := 1

/-- Received NACK on transmit of address. -/
def EC_NACK_ADDR : Nat := 2

/-- Received NACK on transmit of data. -/
def EC_NACK_DATA : Nat := 3

/-- Other I2C error. -/
def EC_I2C_OTHER : Nat := 4

/-- Invalid register passed to function. -/
def EC_BAD_REGISTER : Nat := 5

/-- Invalid wiper setting selected. -/
def EC_BAD_WIPER_SETTING : Nat := 6

/-- Invalid number of bytes read from register. -/
def EC_BAD_READ_SIZE : Nat := 7

/-- Bad device address - device address must be in [0, 3]. -/
def EC_BAD_DEVICE_ADDR : Nat := 8

/-- Function not implemented on interface. -/
def EC_NOT_IMPLEMENTED : Nat := 9

/-- Communication has not been initialized. -/
def EC_NOT_INITIALIZED : Nat := 10

/-- Base I2C address of these devices (`AD525x.h`: `base_I2C_addr 0x2C`). -/
def base_I2C_addr : Nat := 0x2C

/-- Instruction-register base for the RDAC (wiper) registers (`RDAC_register 0x00`). -/
def RDAC_register : Nat := 0x00

/-- Instruction-register base for the EEMEM registers (`EEMEM_register 0x20`). -/
def EEMEM_register : Nat := 0x20

/-- Instruction-register base for the factory tolerance registers (`Tolerance_register 0x38`). -/
def Tolerance_register : Nat := 0x38

/-- Low bit selecting the integer part of a tolerance register (`Tol_int 0x00`). -/
def Tol_int : Nat := 0x00

/-- Low bit selecting the fractional part of a tolerance register (`Tol_dec 0x01`). -/
def Tol_dec : Nat := 0x01

/-- Maximum wiper value of the AD5253 (`AD5253_max 63` / `AD5253::max_val`). -/
def AD5253_max : Nat := 63

/-- Maximum wiper value of the AD5254 (`AD5254_max 255` / `AD5254::max_val`). -/
def AD5254_max : Nat := 255

/-- Command byte: return device to idle state (`CMD_NOP 0x80`). -/
def CMD_NOP : Nat := 0x80

/-- Command byte: restore EEMEM (A1, A0) to RDAC register (A1, A0) (`CMD_Restore_RDAC 0x88`). -/
def CMD_Restore_RDAC : Nat := 0x88

/-- Command byte: store RDAC (A1, A0) to EEMEM register (A1, A0) (`CMD_Store_RDAC 0x90`). -/
def CMD_Store_RDAC : Nat := 0x90

/-- Command byte: decrement RDAC (A1, A0) by 6dB (`CMD_Dec_RDAC_6dB 0x98`). -/
def CMD_Dec_RDAC_6dB : Nat := 0x98

/-- Command byte: decrement all RDAC by 6dB (`CMD_Dec_All_RDAC_6dB 0xa0`). -/
def CMD_Dec_All_RDAC_6dB : Nat := 0xa0

/-- Command byte: decrement RDAC (A1, A0) by 1 step (`CMD_Dec_RDAC_step 0xa8`). -/
def CMD_Dec_RDAC_step : Nat := 0xa8

/-- Command byte: decrement all RDAC by 1 step (`CMD_Dec_All_RDAC_step 0xb0`). -/
def CMD_Dec_All_RDAC_step : Nat := 0xb0

/-- Command byte: restore all RDACs from EEMEM (`CMD_Restore_All_RDAC 0xb8`). -/
def CMD_Restore_All_RDAC : Nat := 0xb8

/-- Command byte: increment RDAC (A1, A0) by 6dB (`CMD_Inc_RDAC_6dB 0xc0`). -/
def CMD_Inc_RDAC_6dB : Nat := 0xc0

/-- Command byte: increment all RDAC by 6dB (`CMD_Inc_All_RDAC_6dB 0xc8`). -/
def CMD_Inc_All_RDAC_6dB : Nat := 0xc8

/-- Command byte: increment RDAC (A1, A0) by one step (`CMD_Inc_RDAC_step 0xd0`). -/
def CMD_Inc_RDAC_step : Nat := 0xd0

/-- Command byte: increment all RDACs by one step (`CMD_Inc_All_RDAC_step 0xd8`). -/
def CMD_Inc_All_RDAC_step : Nat := 0xd8

/-- Modelled from the spec: the header revision declaring the named class
constants `AD525x::max_AD_addr`, `AD525x::max_RDAC_register` and
`AD525x::max_EEMEM_register` used by `AD525x/AD525x.cpp` is not in the
repository snapshot; their values are fixed by spec sections 3, 6 and 8
(2-bit selector, wiper index in [0,3], non-volatile index in [0,15]) and by
the driver's own doc comments ("maximum value (3)", "[0-15]",
"device address must be in [0, 3]").  Maximum 2-bit device-address selector. -/
def max_AD_addr : Nat := 3

/-- Modelled from the spec: see `max_AD_addr`.  Maximum RDAC register index. -/
def max_RDAC_register : Nat := 3

/-- Modelled from the spec: see `max_AD_addr`.  Maximum EEMEM register index. -/
def max_EEMEM_register : Nat := 15

/-- The concrete device type of a handle: the undifferentiated base class
`AD525x`, or one of the child classes `AD5253` / `AD5254` which override the
virtual `get_max_val`. -/
inductive Variant where
  | base
  | ad5253
  | ad5254
deriving DecidableEq

/-- The mutable state of an `AD525x` object: device variant (which C++
realises through the vtable), the full 7-bit I2C address `dev_addr`, the
stored error code `err_code`, and the `initialized` flag. -/
structure Handle where
  variant : Variant
  dev_addr : Nat
  err_code : Nat
  initialized : Bool
deriving DecidableEq

/-- A transaction on the two-wire bus: a write of a list of payload bytes to a
device address, or a request for `len` bytes from a device address. -/
inductive Txn where
  | write (addr : Nat) (bytes : List Nat)
  | request (addr : Nat) (len : Nat)
deriving DecidableEq

/-- Oracle for the transport collaborator (the `Wire` library):
`writeErr addr bytes` is the `Wire.endTransmission` result of a write
transaction, `requestBytes reg len` the bytes the device returns for a read
request while its register pointer holds `reg` (the register byte written by
the immediately preceding addressing transaction), and `requestErr reg len`
the final `Wire.endTransmission` result of the read transaction. -/
structure I2CBus where
  writeErr : Nat → List Nat → Nat
  requestBytes : Nat → Nat → List Nat
  requestErr : Nat → Nat → Nat

/-- Result of one driver operation: the C++ return value, the updated object
state, and the list of bus transactions issued. -/
structure OpResult (α : Type) where
  ret : α
  handle : Handle
  trace : List Txn
deriving DecidableEq

/-- `AD525x::get_max_val` and its overrides `AD5253::get_max_val`,
`AD5254::get_max_val`: the base class sets `err_code = EC_NOT_IMPLEMENTED`
and returns 0; the children return their `max_val` constant. -/
def get_max_val (h : Handle) : Nat × Handle :=
  match h.variant with
  | .base => (0, { h with err_code := EC_NOT_IMPLEMENTED })
  | .ad5253 => (AD5253_max, h)
  | .ad5254 => (AD5254_max, h)

/-- The maximum wiper value reported by a handle's variant (first component of
`get_max_val`); the spec's `variant.max_wiper_value`. -/
def maxVal (h : Handle) : Nat := (get_max_val h).fst

/-- `AD525x::write_cmd`: single-byte command transaction; stores the
transport result in `err_code` and returns it. -/
def write_cmd (bus : I2CBus) (h : Handle) (cmd_register : Nat) : OpResult Nat :=
  let e := bus.writeErr h.dev_addr [cmd_register]
  ⟨e, { h with err_code := e }, [Txn.write h.dev_addr [cmd_register]]⟩

/-- `AD525x::write_data`: two-byte write (register address, data); stores the
transport result in `err_code` and returns it. -/
def write_data (bus : I2CBus) (h : Handle) (register_addr data : Nat) : OpResult Nat :=
  let e := bus.writeErr h.dev_addr [register_addr, data]
  ⟨e, { h with err_code := e }, [Txn.write h.dev_addr [register_addr, data]]⟩

/-- `AD525x::read_data`: addressing write of `register_addr`, then a request
for `len` bytes.  Returns `none` (the C++ `NULL`) when the addressing write
fails, when the byte count is wrong (`EC_BAD_READ_SIZE`), or when the closing
`endTransmission` fails. -/
def read_data (bus : I2CBus) (h : Handle) (register_addr len : Nat) :
    OpResult (Option (List Nat)) :=
  let e1 := bus.writeErr h.dev_addr [register_addr]
  let h1 := { h with err_code := e1 }
  if e1 > 0 then
    ⟨none, h1, [Txn.write h.dev_addr [register_addr]]⟩
  else
    let bytes := bus.requestBytes register_addr len
    let t := [Txn.write h.dev_addr [register_addr], Txn.request h.dev_addr len]
    if bytes.length ≠ len then
      ⟨none, { h1 with err_code := EC_BAD_READ_SIZE }, t⟩
    else
      let e2 := bus.requestErr register_addr len
      let h2 := { h1 with err_code := e2 }
      if e2 > 0 then ⟨none, h2, t⟩ else ⟨some bytes, h2, t⟩

/-- `AD525x::read_data_byte`: `read_data` of one byte; returns 0 on `NULL`. -/
def read_data_byte (bus : I2CBus) (h : Handle) (register_addr : Nat) : OpResult Nat :=
  let r := read_data bus h register_addr 1
  match r.ret with
  | none => ⟨0, r.handle, r.trace⟩
  | some bytes => ⟨bytes.headD 0, r.handle, r.trace⟩

/-- `AD525x::initialize` (named `initDevice` here): rejects a selector above
`max_AD_addr` with `EC_BAD_DEVICE_ADDR` and marks the handle uninitialized;
otherwise composes `dev_addr = base_I2C_addr | AD_addr`, starts the bus
(`Wire.begin`, no addressed transaction) and sets `initialized`.  Note that
the success path does not touch `err_code`. -/
def initDevice (h : Handle) (AD_addr : Nat) : OpResult Nat :=
  if AD_addr > max_AD_addr then
    ⟨EC_BAD_DEVICE_ADDR,
      { h with initialized := false, err_code := EC_BAD_DEVICE_ADDR }, []⟩
  else
    ⟨0, { h with dev_addr := base_I2C_addr ||| AD_addr, initialized := true }, []⟩

/-- `AD525x::write_RDAC`. -/
def write_RDAC (bus : I2CBus) (h : Handle) (RDAC value : Nat) : OpResult Nat :=
  if h.initialized = false then
    ⟨EC_NOT_INITIALIZED, { h with err_code := EC_NOT_INITIALIZED }, []⟩
  else if RDAC > max_RDAC_register then
    ⟨EC_BAD_REGISTER, { h with err_code := EC_BAD_REGISTER }, []⟩
  else
    let p := get_max_val h
    let max_value := p.fst
    let h1 := p.snd
    if max_value = 0 then
      ⟨h1.err_code, h1, []⟩
    else if value > max_value then
      ⟨EC_BAD_WIPER_SETTING, { h1 with err_code := EC_BAD_WIPER_SETTING }, []⟩
    else
      write_data bus h1 (RDAC_register ||| RDAC) value

/-- `AD525x::read_RDAC`: returns the wiper byte, or 0 with `err_code` set. -/
def read_RDAC (bus : I2CBus) (h : Handle) (RDAC : Nat) : OpResult Nat :=
  if h.initialized = false then
    ⟨0, { h with err_code := EC_NOT_INITIALIZED }, []⟩
  else if RDAC > max_RDAC_register then
    ⟨0, { h with err_code := EC_BAD_REGISTER }, []⟩
  else
    let r := read_data_byte bus h (RDAC_register ||| RDAC)
    if r.handle.err_code ≠ 0 then ⟨0, r.handle, r.trace⟩ else r

/-- `AD525x::write_EEMEM`.  Note the shadow-range guard is written
`reg <= max_RDAC_register && value < max_value` in the source. -/
def write_EEMEM (bus : I2CBus) (h : Handle) (reg value : Nat) : OpResult Nat :=
  if h.initialized = false then
    ⟨EC_NOT_INITIALIZED, { h with err_code := EC_NOT_INITIALIZED }, []⟩
  else
    let p := get_max_val h
    let max_value := p.fst
    let h1 := p.snd
    if max_value = 0 then
      ⟨h1.err_code, h1, []⟩
    else if reg ≤ max_RDAC_register ∧ value < max_value then
      ⟨EC_BAD_WIPER_SETTING, { h1 with err_code := EC_BAD_WIPER_SETTING }, []⟩
    else if reg > max_EEMEM_register then
      ⟨EC_BAD_REGISTER, { h1 with err_code := EC_BAD_REGISTER }, []⟩
    else
      write_data bus h1 (EEMEM_register ||| reg) value

/-- `AD525x::read_EEMEM`: returns the stored byte, or 0 with `err_code` set. -/
def read_EEMEM (bus : I2CBus) (h : Handle) (reg : Nat) : OpResult Nat :=
  if h.initialized = false then
    ⟨0, { h with err_code := EC_NOT_INITIALIZED }, []⟩
  else if reg > max_EEMEM_register then
    ⟨0, { h with err_code := EC_BAD_REGISTER }, []⟩
  else
    let r := read_data_byte bus h (EEMEM_register ||| reg)
    if r.handle.err_code ≠ 0 then ⟨0, r.handle, r.trace⟩ else r

/-- The sign mask used by the tolerance decode (`uint8_t sign_mask = 0x80`). -/
def sign_mask : Nat := 0x80

/-- The pure tolerance decode of `AD525x::read_tolerance`: magnitude from
`(~sign_mask) & tol_int_data` (on a byte this is `tol_int_data &&& 0x7f`),
negated when the sign bit is set, then for each `i` in `0..7` with bit
`sign_mask >> i` set in the fractional byte, `1 / (2 << i)` is added. -/
def tolDecode (tol_int_data tol_dec_data : Nat) : ℚ :=
  let output : ℚ := ((0x7f &&& tol_int_data : Nat) : ℚ)
  let output := if sign_mask &&& tol_int_data ≠ 0 then -output else output
  (List.range 8).foldl
    (fun out i =>
      if (sign_mask >>> i) &&& tol_dec_data ≠ 0 then out + 1 / (((2 <<< i : Nat) : ℚ))
      else out)
    output

/-- `AD525x::read_tolerance`: reads the integer byte at
`Tolerance_register | (RDAC << 1) | Tol_int` and the fractional byte at
`... | Tol_dec`, aborting on either error, and decodes with `tolDecode`. -/
def read_tolerance (bus : I2CBus) (h : Handle) (RDAC : Nat) : OpResult ℚ :=
  if h.initialized = false then
    ⟨0, { h with err_code := EC_NOT_INITIALIZED }, []⟩
  else if RDAC > max_RDAC_register then
    ⟨0, { h with err_code := EC_BAD_REGISTER }, []⟩
  else
    let instr_addr := Tolerance_register ||| (RDAC <<< 1)
    let r1 := read_data_byte bus h (instr_addr ||| Tol_int)
    if r1.handle.err_code ≠ 0 then
      ⟨0, r1.handle, r1.trace⟩
    else
      let r2 := read_data_byte bus r1.handle (instr_addr ||| Tol_dec)
      if r2.handle.err_code ≠ 0 then
        ⟨0, r2.handle, r1.trace ++ r2.trace⟩
      else
        ⟨tolDecode r1.ret r2.ret, r2.handle, r1.trace ++ r2.trace⟩

/-- `AD525x::reset_device`. -/
def reset_device (bus : I2CBus) (h : Handle) : OpResult Nat :=
  if h.initialized = false then
    ⟨EC_NOT_INITIALIZED, { h with err_code := EC_NOT_INITIALIZED }, []⟩
  else
    write_cmd bus h CMD_NOP

/-- `AD525x::restore_RDAC`. -/
def restore_RDAC (bus : I2CBus) (h : Handle) (RDAC : Nat) : OpResult Nat :=
  if h.initialized = false then
    ⟨EC_NOT_INITIALIZED, { h with err_code := EC_NOT_INITIALIZED }, []⟩
  else if RDAC > max_RDAC_register then
    ⟨EC_BAD_REGISTER, { h with err_code := EC_BAD_REGISTER }, []⟩
  else
    write_cmd bus h (CMD_Restore_RDAC ||| RDAC)

/-- `AD525x::restore_all_RDAC`. -/
def restore_all_RDAC (bus : I2CBus) (h : Handle) : OpResult Nat :=
  if h.initialized = false then
    ⟨EC_NOT_INITIALIZED, { h with err_code := EC_NOT_INITIALIZED }, []⟩
  else
    write_cmd bus h CMD_Restore_All_RDAC

/-- `AD525x::store_RDAC`. -/
def store_RDAC (bus : I2CBus) (h : Handle) (RDAC : Nat) : OpResult Nat :=
  if h.initialized = false then
    ⟨EC_NOT_INITIALIZED, { h with err_code := EC_NOT_INITIALIZED }, []⟩
  else if RDAC > max_RDAC_register then
    ⟨EC_BAD_REGISTER, { h with err_code := EC_BAD_REGISTER }, []⟩
  else
    write_cmd bus h (CMD_Store_RDAC ||| RDAC)

/-- `AD525x::decrement_RDAC`. -/
def decrement_RDAC (bus : I2CBus) (h : Handle) (RDAC : Nat) : OpResult Nat :=
  if h.initialized = false then
    ⟨EC_NOT_INITIALIZED, { h with err_code := EC_NOT_INITIALIZED }, []⟩
  else if RDAC > max_RDAC_register then
    ⟨EC_BAD_REGISTER, { h with err_code := EC_BAD_REGISTER }, []⟩
  else
    write_cmd bus h (CMD_Dec_RDAC_step ||| RDAC)

/-- `AD525x::increment_RDAC`. -/
def increment_RDAC (bus : I2CBus) (h : Handle) (RDAC : Nat) : OpResult Nat :=
  if h.initialized = false then
    ⟨EC_NOT_INITIALIZED, { h with err_code := EC_NOT_INITIALIZED }, []⟩
  else if RDAC > max_RDAC_register then
    ⟨EC_BAD_REGISTER, { h with err_code := EC_BAD_REGISTER }, []⟩
  else
    write_cmd bus h (CMD_Inc_RDAC_step ||| RDAC)

/-- `AD525x::decrement_RDAC_6dB`. -/
def decrement_RDAC_6dB (bus : I2CBus) (h : Handle) (RDAC : Nat) : OpResult Nat :=
  if h.initialized = false then
    ⟨EC_NOT_INITIALIZED, { h with err_code := EC_NOT_INITIALIZED }, []⟩
  else if RDAC > max_RDAC_register then
    ⟨EC_BAD_REGISTER, { h with err_code := EC_BAD_REGISTER }, []⟩
  else
    write_cmd bus h (CMD_Dec_RDAC_6dB ||| RDAC)

/-- `AD525x::increment_RDAC_6dB`. -/
def increment_RDAC_6dB (bus : I2CBus) (h : Handle) (RDAC : Nat) : OpResult Nat :=
  if h.initialized = false then
    ⟨EC_NOT_INITIALIZED, { h with err_code := EC_NOT_INITIALIZED }, []⟩
  else if RDAC > max_RDAC_register then
    ⟨EC_BAD_REGISTER, { h with err_code := EC_BAD_REGISTER }, []⟩
  else
    write_cmd bus h (CMD_Inc_RDAC_6dB ||| RDAC)

/-- `AD525x::decrement_all_RDAC`. -/
def decrement_all_RDAC (bus : I2CBus) (h : Handle) : OpResult Nat :=
  if h.initialized = false then
    ⟨EC_NOT_INITIALIZED, { h with err_code := EC_NOT_INITIALIZED }, []⟩
  else
    write_cmd bus h CMD_Dec_All_RDAC_step

/-- `AD525x::increment_all_RDAC`. -/
def increment_all_RDAC (bus : I2CBus) (h : Handle) : OpResult Nat :=
  if h.initialized = false then
    ⟨EC_NOT_INITIALIZED, { h with err_code := EC_NOT_INITIALIZED }, []⟩
  else
    write_cmd bus h CMD_Inc_All_RDAC_step

/-- `AD525x::decrement_all_RDAC_6dB`. -/
def decrement_all_RDAC_6dB (bus : I2CBus) (h : Handle) : OpResult Nat :=
  if h.initialized = false then
    ⟨EC_NOT_INITIALIZED, { h with err_code := EC_NOT_INITIALIZED }, []⟩
  else
    write_cmd bus h CMD_Dec_All_RDAC_6dB

/-- `AD525x::increment_all_RDAC_6dB`. -/
def increment_all_RDAC_6dB (bus : I2CBus) (h : Handle) : OpResult Nat :=
  if h.initialized = false then
    ⟨EC_NOT_INITIALIZED, { h with err_code := EC_NOT_INITIALIZED }, []⟩
  else
    write_cmd bus h CMD_Inc_All_RDAC_6dB

/-- The public operations of the driver other than `initialize` (wiper
read/write, EEMEM read/write, tolerance read, and the twelve device
commands). -/
inductive Op where
  | wRDAC (RDAC value : Nat)
  | rRDAC (RDAC : Nat)
  | wEEMEM (reg value : Nat)
  | rEEMEM (reg : Nat)
  | rTol (RDAC : Nat)
  | reset
  | restore (RDAC : Nat)
  | restoreAll
  | store (RDAC : Nat)
  | decStep (RDAC : Nat)
  | incStep (RDAC : Nat)
  | dec6dB (RDAC : Nat)
  | inc6dB (RDAC : Nat)
  | decStepAll
  | incStepAll
  | dec6dBAll
  | inc6dBAll
deriving DecidableEq

/-- Run a public operation, keeping the final object state and the issued
transactions (the return value's type varies per operation, so it is
dropped here). -/
def runOp (bus : I2CBus) (op : Op) (h : Handle) : Handle × List Txn :=
  match op with
  | .wRDAC r v => let o := write_RDAC bus h r v; (o.handle, o.trace)
  | .rRDAC r => let o := read_RDAC bus h r; (o.handle, o.trace)
  | .wEEMEM r v => let o := write_EEMEM bus h r v; (o.handle, o.trace)
  | .rEEMEM r => let o := read_EEMEM bus h r; (o.handle, o.trace)
  | .rTol r => let o := read_tolerance bus h r; (o.handle, o.trace)
  | .reset => let o := reset_device bus h; (o.handle, o.trace)
  | .restore r => let o := restore_RDAC bus h r; (o.handle, o.trace)
  | .restoreAll => let o := restore_all_RDAC bus h; (o.handle, o.trace)
  | .store r => let o := store_RDAC bus h r; (o.handle, o.trace)
  | .decStep r => let o := decrement_RDAC bus h r; (o.handle, o.trace)
  | .incStep r => let o := increment_RDAC bus h r; (o.handle, o.trace)
  | .dec6dB r => let o := decrement_RDAC_6dB bus h r; (o.handle, o.trace)
  | .inc6dB r => let o := increment_RDAC_6dB bus h r; (o.handle, o.trace)
  | .decStepAll => let o := decrement_all_RDAC bus h; (o.handle, o.trace)
  | .incStepAll => let o := increment_all_RDAC bus h; (o.handle, o.trace)
  | .dec6dBAll => let o := decrement_all_RDAC_6dB bus h; (o.handle, o.trace)
  | .inc6dBAll => let o := increment_all_RDAC_6dB bus h; (o.handle, o.trace)

/-- The local validation an operation performs before touching the transport:
the handle is initialized, indices are in bounds, the variant supplies a
maximum wiper value where one is queried, and values pass the wiper-setting
guard exactly as the source writes it. -/
def localValid (op : Op) (h : Handle) : Prop :=
  h.initialized = true ∧
  match op with
  | .wRDAC r v => r ≤ max_RDAC_register ∧ maxVal h ≠ 0 ∧ v ≤ maxVal h
  | .rRDAC r => r ≤ max_RDAC_register
  | .wEEMEM r v =>
      maxVal h ≠ 0 ∧ ¬(r ≤ max_RDAC_register ∧ v < maxVal h) ∧ r ≤ max_EEMEM_register
  | .rEEMEM r => r ≤ max_EEMEM_register
  | .rTol r => r ≤ max_RDAC_register
  | .reset => True
  | .restore r => r ≤ max_RDAC_register
  | .restoreAll => True
  | .store r => r ≤ max_RDAC_register
  | .decStep r => r ≤ max_RDAC_register
  | .incStep r => r ≤ max_RDAC_register
  | .dec6dB r => r ≤ max_RDAC_register
  | .inc6dB r => r ≤ max_RDAC_register
  | .decStepAll => True
  | .incStepAll => True
  | .dec6dBAll => True
  | .inc6dBAll => True

/-- A transport oracle on which every transaction succeeds and every read
returns zero bytes of the requested length. -/
def okBus : I2CBus :=
  { writeErr := fun _ _ => 0
    requestBytes := fun _ len => List.replicate len 0
    requestErr := fun _ _ => 0 }

/-- A transport oracle whose device reports tolerance bytes `0x05` (integer
part, register pointer 0x38) and `0x80` (fractional part, register pointer
0x39) and otherwise zero bytes; every transaction succeeds. -/
def tolBus : I2CBus :=
  { writeErr := fun _ _ => 0
    requestBytes := fun reg len =>
      if reg = 0x38 then [0x05] else if reg = 0x39 then [0x80] else List.replicate len 0
    requestErr := fun _ _ => 0 }

/-- A fresh, uninitialized AD5253 handle. -/
def h5253 : Handle := { variant := .ad5253, dev_addr := 0, err_code := 0, initialized := false }

/-- An initialized AD5253 handle at selector 0. -/
def h5253i : Handle :=
  { variant := .ad5253, dev_addr := 0x2C, err_code := 0, initialized := true }

/-- An initialized AD5254 handle at selector 0. -/
def h5254i : Handle :=
  { variant := .ad5254, dev_addr := 0x2C, err_code := 0, initialized := true }

/-- An initialized handle of the undifferentiated base type. -/
def hBasei : Handle :=
  { variant := .base, dev_addr := 0x2C, err_code := 0, initialized := true }

/-- The tolerance decode as the spec words it, for comparison with
`tolDecode`: the integer byte's high bit (`I.testBit 7`) is a sign flag, the
magnitude is the low 7 bits (`I % 128`), negated when the flag is set; each
set bit of the fractional byte at position `i` counted from the high bit
(`i = 0` for bit 7 down to `i = 7` for bit 0) contributes `2 ^ (-(i+1))`. -/
def tolSpecValue (I F : Nat) : ℚ :=
  (if I.testBit 7 then -((I % 128 : Nat) : ℚ) else ((I % 128 : Nat) : ℚ)) +
    (Finset.range 8).sum (fun i => if F.testBit (7 - i) then (1 : ℚ) / 2 ^ (i + 1) else 0)

/-- Every public operation on an uninitialized handle stores
`EC_NOT_INITIALIZED` and issues no transaction. -/
lemma runOp_uninit (bus : I2CBus) (op : Op) (h : Handle)
    (hu : h.initialized = false) :
    (runOp bus op h).1.err_code = EC_NOT_INITIALIZED ∧ (runOp bus op h).2 = [] := by
  cases op <;>
    simp [runOp, write_RDAC, read_RDAC, write_EEMEM, read_EEMEM, read_tolerance,
      reset_device, restore_RDAC, restore_all_RDAC, store_RDAC, decrement_RDAC,
      increment_RDAC, decrement_RDAC_6dB, increment_RDAC_6dB, decrement_all_RDAC,
      increment_all_RDAC, decrement_all_RDAC_6dB, increment_all_RDAC_6dB, hu]

/-- Masking with a power of two is nonzero exactly when that bit is set. -/
lemma two_pow_and_ne_zero (F k : Nat) : (2 ^ k &&& F ≠ 0) ↔ F.testBit k := by
  rw [Nat.two_pow_and]
  cases hb : F.testBit k <;> simp [hb, Nat.pow_eq_zero]

/-- The loop guard of the fractional decode, `(sign_mask >> i) & F`, tests
bit `7 - i` of `F`. -/
lemma shift128_and_ne (F i : Nat) (hi : i < 8) :
    ((128 >>> i) &&& F ≠ 0) ↔ F.testBit (7 - i) := by
  have h1 : (128 >>> i) = 2 ^ (7 - i) := by
    rw [Nat.shiftRight_eq_div_pow, show (128 : Nat) = 2 ^ 7 by norm_num,
      Nat.pow_div (by omega) (by norm_num)]
  rw [h1]
  exact two_pow_and_ne_zero F (7 - i)

/-- The fractional-decode fold accumulates the sum of its per-bit
contributions. -/
lemma tolFold_eq_sum (F : Nat) :
    ∀ (l : List Nat) (a : ℚ),
      l.foldl
          (fun out i =>
            if (sign_mask >>> i) &&& F ≠ 0 then out + 1 / (((2 <<< i : Nat) : ℚ)) else out)
          a
        = a +
          (l.map fun i =>
            if (sign_mask >>> i) &&& F ≠ 0 then 1 / (((2 <<< i : Nat) : ℚ)) else 0).sum
  | [], a => by simp
  | x :: xs, a => by
    simp only [List.foldl_cons, List.map_cons, List.sum_cons]
    rw [tolFold_eq_sum F xs]
    by_cases hx : (sign_mask >>> x) &&& F ≠ 0 <;> simp [hx] <;> ring

/-- The source decode agrees with the decode as worded by the spec. -/
lemma tolDecode_eq_spec (I F : Nat) : tolDecode I F = tolSpecValue I F := by
  have hsign : (sign_mask &&& I ≠ 0) ↔ I.testBit 7 := by
    rw [show sign_mask = 2 ^ 7 from rfl]
    exact two_pow_and_ne_zero I 7
  have hmag : (0x7f &&& I) = I % 128 := by
    rw [Nat.and_comm]
    simpa using Nat.and_pow_two_sub_one_eq_mod I 7
  have c0 := shift128_and_ne F 0 (by norm_num)
  have c1 := shift128_and_ne F 1 (by norm_num)
  have c2 := shift128_and_ne F 2 (by norm_num)
  have c3 := shift128_and_ne F 3 (by norm_num)
  have c4 := shift128_and_ne F 4 (by norm_num)
  have c5 := shift128_and_ne F 5 (by norm_num)
  have c6 := shift128_and_ne F 6 (by norm_num)
  have c7 := shift128_and_ne F 7 (by norm_num)
  simp only [tolDecode]
  rw [tolFold_eq_sum]
  unfold tolSpecValue
  congr 1
  · rw [hmag]
    by_cases h7 : I.testBit 7 <;> simp [hsign, h7]
  · rw [show List.range 8 = [0, 1, 2, 3, 4, 5, 6, 7] from rfl]
    simp only [List.map_cons, List.map_nil, List.sum_cons, List.sum_nil,
      Finset.sum_range_succ, Finset.sum_range_zero,
      show sign_mask = 128 from rfl, c0, c1, c2, c3, c4, c5, c6, c7,
      show (2 <<< 0 : Nat) = 2 from rfl, show (2 <<< 1 : Nat) = 4 from rfl,
      show (2 <<< 2 : Nat) = 8 from rfl, show (2 <<< 3 : Nat) = 16 from rfl,
      show (2 <<< 4 : Nat) = 32 from rfl, show (2 <<< 5 : Nat) = 64 from rfl,
      show (2 <<< 6 : Nat) = 128 from rfl, show (2 <<< 7 : Nat) = 256 from rfl]
    norm_num
    ring

/-- Claim C5: for every 2-bit selector `s` in [0,3], `initialize(s)`
(`initDevice`) returns 0, sets the bus address to `0x2C | s` and sets
`initialized`; for every selector above 3 it fails with
`EC_BAD_DEVICE_ADDR` (8) and leaves the handle uninitialized. -/
theorem initDevice_selector_spec (h : Handle) (s : Nat) :
    (s ≤ 3 →
      (initDevice h s).ret = 0 ∧
      (initDevice h s).handle.dev_addr = base_I2C_addr ||| s ∧
      (initDevice h s).handle.initialized = true) ∧
    (s > 3 →
      (initDevice h s).ret = EC_BAD_DEVICE_ADDR ∧
      (initDevice h s).handle.initialized = false) := by
  constructor
  · intro hs
    have hns : ¬ s > max_AD_addr := by simp only [max_AD_addr]; omega
    simp [initDevice, hns]
  · intro hs
    have hgs : s > max_AD_addr := by simp only [max_AD_addr]; omega
    simp [initDevice, hgs]

/-- Witness for C5 at selectors 2 and 4. -/
theorem initDevice_selector_spec_witness :
    ((initDevice h5253 2).ret = 0 ∧
     (initDevice h5253 2).handle.dev_addr = base_I2C_addr ||| 2 ∧
     (initDevice h5253 2).handle.initialized = true) ∧
    ((initDevice h5253 4).ret = EC_BAD_DEVICE_ADDR ∧
     (initDevice h5253 4).handle.initialized = false) :=
  ⟨(initDevice_selector_spec h5253 2).1 (by norm_num),
   (initDevice_selector_spec h5253 4).2 (by norm_num)⟩

/-- Claim C1 (code bug): `write_EEMEM`'s wiper-shadow guard is inverted.  On
an initialized AD5253 handle, `write_EEMEM 0 10` is rejected with
`EC_BAD_WIPER_SETTING` and issues no transaction although `10 ≤ 63`, while
`write_EEMEM 0 64` passes the shadow check and issues the write although
`64 > 63`: the source tests `value < max_value` where its own doc comment
("value exceeds maximum allowed RDAC value") requires `value > max_value`. -/
theorem write_EEMEM_shadow_guard_inverted :
    ((write_EEMEM okBus h5253i 0 10).ret = EC_BAD_WIPER_SETTING ∧
     (write_EEMEM okBus h5253i 0 10).trace = [] ∧ 10 ≤ AD5253_max) ∧
    ((write_EEMEM okBus h5253i 0 64).trace =
        [Txn.write h5253i.dev_addr [EEMEM_register ||| 0, 64]] ∧ 64 > AD5253_max) := by
  decide

/-- Claim C2: on an initialized handle of a concrete variant,
`write_EEMEM 1 value` with `value < variant.max_wiper_value` fails with
`EC_BAD_WIPER_SETTING` (6) and issues nothing, while `write_EEMEM 5 200`
issues the transport write (register 5 being outside the shadow range) and
returns the transport result. -/
theorem write_EEMEM_shadow_range_examples (bus : I2CBus) (h : Handle) (value : Nat)
    (hi : h.initialized = true) (hv : h.variant ≠ Variant.base)
    (hlt : value < maxVal h) :
    (write_EEMEM bus h 1 value).ret = EC_BAD_WIPER_SETTING ∧
    (write_EEMEM bus h 1 value).trace = [] ∧
    (write_EEMEM bus h 5 200).trace =
      [Txn.write h.dev_addr [EEMEM_register ||| 5, 200]] ∧
    (write_EEMEM bus h 5 200).ret = bus.writeErr h.dev_addr [EEMEM_register ||| 5, 200] := by
  cases hv0 : h.variant with
  | base => exact absurd hv0 hv
  | ad5253 =>
    have hm : value < 63 := by
      simpa [maxVal, get_max_val, hv0, AD5253_max] using hlt
    refine ⟨?_, ?_, ?_, ?_⟩ <;>
      simp [write_EEMEM, hi, get_max_val, hv0, AD5253_max, max_RDAC_register,
        max_EEMEM_register, write_data, hm]
  | ad5254 =>
    have hm : value < 255 := by
      simpa [maxVal, get_max_val, hv0, AD5254_max] using hlt
    refine ⟨?_, ?_, ?_, ?_⟩ <;>
      simp [write_EEMEM, hi, get_max_val, hv0, AD5254_max, max_RDAC_register,
        max_EEMEM_register, write_data, hm]

/-- Witness for C2 on an initialized AD5253 handle with value 10. -/
theorem write_EEMEM_shadow_range_examples_witness :
    (write_EEMEM okBus h5253i 1 10).ret = EC_BAD_WIPER_SETTING ∧
    (write_EEMEM okBus h5253i 1 10).trace = [] ∧
    (write_EEMEM okBus h5253i 5 200).trace =
      [Txn.write h5253i.dev_addr [EEMEM_register ||| 5, 200]] ∧
    (write_EEMEM okBus h5253i 5 200).ret =
      okBus.writeErr h5253i.dev_addr [EEMEM_register ||| 5, 200] :=
  write_EEMEM_shadow_range_examples okBus h5253i 10 (by decide) (by decide) (by decide)

/-- Claim C9: `get_max_val` on the undifferentiated base type sets
`EC_NOT_IMPLEMENTED` (9) and returns 0, `AD5253::get_max_val` returns 63 and
`AD5254::get_max_val` returns 255; consequently `write_RDAC` on an
initialized base-type handle returns `EC_NOT_IMPLEMENTED` for every wiper
index in [0,3] and every value, without issuing any transaction. -/
theorem get_max_val_capability (bus : I2CBus) (h : Handle) (i v : Nat) :
    (h.variant = Variant.base →
      (get_max_val h).fst = 0 ∧ (get_max_val h).snd.err_code = EC_NOT_IMPLEMENTED) ∧
    (h.variant = Variant.ad5253 → (get_max_val h).fst = 63) ∧
    (h.variant = Variant.ad5254 → (get_max_val h).fst = 255) ∧
    (h.variant = Variant.base → h.initialized = true → i ≤ max_RDAC_register →
      (write_RDAC bus h i v).ret = EC_NOT_IMPLEMENTED ∧
      (write_RDAC bus h i v).trace = []) := by
  refine ⟨fun hb => ?_, fun hb => ?_, fun hb => ?_, fun hb hi hle => ?_⟩
  · simp [get_max_val, hb]
  · simp [get_max_val, hb, AD5253_max]
  · simp [get_max_val, hb, AD5254_max]
  · have hni : ¬ i > max_RDAC_register := by omega
    simp [write_RDAC, hi, hni, get_max_val, hb]

/-- Witness for C9 on concrete handles of all three variants. -/
theorem get_max_val_capability_witness :
    ((get_max_val hBasei).fst = 0 ∧
      (get_max_val hBasei).snd.err_code = EC_NOT_IMPLEMENTED) ∧
    (get_max_val h5253i).fst = 63 ∧
    (get_max_val h5254i).fst = 255 ∧
    ((write_RDAC okBus hBasei 0 0).ret = EC_NOT_IMPLEMENTED ∧
      (write_RDAC okBus hBasei 0 0).trace = []) :=
  ⟨(get_max_val_capability okBus hBasei 0 0).1 (by decide),
   (get_max_val_capability okBus h5253i 0 0).2.1 (by decide),
   (get_max_val_capability okBus h5254i 0 0).2.2.1 (by decide),
   (get_max_val_capability okBus hBasei 0 0).2.2.2 (by decide) (by decide) (by decide)⟩

/-- Claim C10: calling `initialize` with a selector above 3 on a previously
initialized handle clears `initialized` while leaving the stored bus address
unchanged; every public operation on the resulting handle fails with
`EC_NOT_INITIALIZED` (10) and issues nothing, and a later `initialize` with a
valid selector succeeds again. -/
theorem initDevice_invalid_selector_deinitializes (bus : I2CBus) (h : Handle)
    (s s2 : Nat) (op : Op) (hi : h.initialized = true) (hs : s > 3) (hs2 : s2 ≤ 3) :
    (initDevice h s).handle.initialized = false ∧
    (initDevice h s).handle.dev_addr = h.dev_addr ∧
    (runOp bus op (initDevice h s).handle).1.err_code = EC_NOT_INITIALIZED ∧
    (runOp bus op (initDevice h s).handle).2 = [] ∧
    (initDevice (initDevice h s).handle s2).ret = 0 ∧
    (initDevice (initDevice h s).handle s2).handle.initialized = true := by
  have hgs : s > max_AD_addr := by simp only [max_AD_addr]; omega
  have hns2 : ¬ s2 > max_AD_addr := by simp only [max_AD_addr]; omega
  have hfail : (initDevice h s).handle =
      { h with initialized := false, err_code := EC_BAD_DEVICE_ADDR } := by
    simp [initDevice, hgs]
  rw [hfail]
  have hrun :=
    runOp_uninit bus op { h with initialized := false, err_code := EC_BAD_DEVICE_ADDR } rfl
  exact ⟨rfl, rfl, hrun.1, hrun.2, by simp [initDevice, hns2], by simp [initDevice, hns2]⟩

/-- Witness for C10: selector 7 after a valid state, then selector 1. -/
theorem initDevice_invalid_selector_deinitializes_witness :
    (initDevice h5253i 7).handle.initialized = false ∧
    (initDevice h5253i 7).handle.dev_addr = h5253i.dev_addr ∧
    (runOp okBus Op.reset (initDevice h5253i 7).handle).1.err_code = EC_NOT_INITIALIZED ∧
    (runOp okBus Op.reset (initDevice h5253i 7).handle).2 = [] ∧
    (initDevice (initDevice h5253i 7).handle 1).ret = 0 ∧
    (initDevice (initDevice h5253i 7).handle 1).handle.initialized = true :=
  initDevice_invalid_selector_deinitializes okBus h5253i 7 1 Op.reset
    (by decide) (by norm_num) (by norm_num)

/-- Claim C7: each device-command function of an initialized handle emits its
fixed opcode from the command table, OR'd with the validated wiper index for
the per-index variants; in particular `restore_RDAC 2` emits `0x88|2 = 0x8A`
and `increment_all_RDAC_6dB` emits exactly `0xC8`. -/
theorem command_opcode_table (bus : I2CBus) (h : Handle) (r : Nat)
    (hi : h.initialized = true) (hr : r ≤ max_RDAC_register) :
    (restore_RDAC bus h 2).trace = [Txn.write h.dev_addr [0x8a]] ∧
    (increment_all_RDAC_6dB bus h).trace = [Txn.write h.dev_addr [0xc8]] ∧
    (reset_device bus h).trace = [Txn.write h.dev_addr [CMD_NOP]] ∧
    (restore_RDAC bus h r).trace = [Txn.write h.dev_addr [CMD_Restore_RDAC ||| r]] ∧
    (store_RDAC bus h r).trace = [Txn.write h.dev_addr [CMD_Store_RDAC ||| r]] ∧
    (decrement_RDAC_6dB bus h r).trace = [Txn.write h.dev_addr [CMD_Dec_RDAC_6dB ||| r]] ∧
    (decrement_all_RDAC_6dB bus h).trace = [Txn.write h.dev_addr [CMD_Dec_All_RDAC_6dB]] ∧
    (decrement_RDAC bus h r).trace = [Txn.write h.dev_addr [CMD_Dec_RDAC_step ||| r]] ∧
    (decrement_all_RDAC bus h).trace = [Txn.write h.dev_addr [CMD_Dec_All_RDAC_step]] ∧
    (restore_all_RDAC bus h).trace = [Txn.write h.dev_addr [CMD_Restore_All_RDAC]] ∧
    (increment_RDAC_6dB bus h r).trace = [Txn.write h.dev_addr [CMD_Inc_RDAC_6dB ||| r]] ∧
    (increment_RDAC bus h r).trace = [Txn.write h.dev_addr [CMD_Inc_RDAC_step ||| r]] ∧
    (increment_all_RDAC bus h).trace = [Txn.write h.dev_addr [CMD_Inc_All_RDAC_step]] := by
  have hnr : ¬ r > max_RDAC_register := by omega
  have h2 : ¬ (2 : Nat) > max_RDAC_register := by simp only [max_RDAC_register]; norm_num
  have e2 : CMD_Restore_RDAC ||| 2 = 0x8a := by decide
  have e8 : CMD_Inc_All_RDAC_6dB = 0xc8 := rfl
  refine ⟨?_, ?_, ?_, ?_, ?_, ?_, ?_, ?_, ?_, ?_, ?_, ?_, ?_⟩ <;>
    simp [restore_RDAC, increment_all_RDAC_6dB, reset_device, store_RDAC,
      decrement_RDAC_6dB, decrement_all_RDAC_6dB, decrement_RDAC,
      decrement_all_RDAC, restore_all_RDAC, increment_RDAC_6dB, increment_RDAC,
      increment_all_RDAC, write_cmd, hi, hnr, h2, e2, e8]

/-- Witness for C7 on an initialized AD5253 handle with index 1. -/
theorem command_opcode_table_witness :
    (restore_RDAC okBus h5253i 2).trace = [Txn.write h5253i.dev_addr [0x8a]] ∧
    (increment_all_RDAC_6dB okBus h5253i).trace = [Txn.write h5253i.dev_addr [0xc8]] ∧
    (reset_device okBus h5253i).trace = [Txn.write h5253i.dev_addr [CMD_NOP]] ∧
    (restore_RDAC okBus h5253i 1).trace =
      [Txn.write h5253i.dev_addr [CMD_Restore_RDAC ||| 1]] ∧
    (store_RDAC okBus h5253i 1).trace =
      [Txn.write h5253i.dev_addr [CMD_Store_RDAC ||| 1]] ∧
    (decrement_RDAC_6dB okBus h5253i 1).trace =
      [Txn.write h5253i.dev_addr [CMD_Dec_RDAC_6dB ||| 1]] ∧
    (decrement_all_RDAC_6dB okBus h5253i).trace =
      [Txn.write h5253i.dev_addr [CMD_Dec_All_RDAC_6dB]] ∧
    (decrement_RDAC okBus h5253i 1).trace =
      [Txn.write h5253i.dev_addr [CMD_Dec_RDAC_step ||| 1]] ∧
    (decrement_all_RDAC okBus h5253i).trace =
      [Txn.write h5253i.dev_addr [CMD_Dec_All_RDAC_step]] ∧
    (restore_all_RDAC okBus h5253i).trace =
      [Txn.write h5253i.dev_addr [CMD_Restore_All_RDAC]] ∧
    (increment_RDAC_6dB okBus h5253i 1).trace =
      [Txn.write h5253i.dev_addr [CMD_Inc_RDAC_6dB ||| 1]] ∧
    (increment_RDAC okBus h5253i 1).trace =
      [Txn.write h5253i.dev_addr [CMD_Inc_RDAC_step ||| 1]] ∧
    (increment_all_RDAC okBus h5253i).trace =
      [Txn.write h5253i.dev_addr [CMD_Inc_All_RDAC_step]] :=
  command_opcode_table okBus h5253i 1 (by decide) (by decide)

/-- Claim C4: on an initialized handle of a concrete variant, `write_RDAC`
fails with `EC_BAD_REGISTER` (5) for every index above 3 and every value,
fails with `EC_BAD_WIPER_SETTING` (6) for an in-range index when the value
exceeds `variant.max_wiper_value`, and otherwise issues exactly one two-byte
write of `(RDAC_register | index, value)`, returning and storing the
transport's result code unchanged. -/
theorem write_RDAC_spec (bus : I2CBus) (h : Handle) (r v : Nat)
    (hi : h.initialized = true) (hv : h.variant ≠ Variant.base) :
    (r > max_RDAC_register →
      (write_RDAC bus h r v).ret = EC_BAD_REGISTER ∧
      (write_RDAC bus h r v).trace = []) ∧
    (r ≤ max_RDAC_register → v > maxVal h →
      (write_RDAC bus h r v).ret = EC_BAD_WIPER_SETTING ∧
      (write_RDAC bus h r v).trace = []) ∧
    (r ≤ max_RDAC_register → v ≤ maxVal h →
      (write_RDAC bus h r v).trace = [Txn.write h.dev_addr [RDAC_register ||| r, v]] ∧
      (write_RDAC bus h r v).ret = bus.writeErr h.dev_addr [RDAC_register ||| r, v] ∧
      (write_RDAC bus h r v).handle.err_code = (write_RDAC bus h r v).ret) := by
  refine ⟨fun hgt => ?_, fun hle hvv => ?_, fun hle hvv => ?_⟩
  · simp [write_RDAC, hi, hgt]
  · have hnr : ¬ r > max_RDAC_register := by omega
    cases hv0 : h.variant with
    | base => exact absurd hv0 hv
    | ad5253 =>
      have hgt : v > 63 := by simpa [maxVal, get_max_val, hv0, AD5253_max] using hvv
      simp [write_RDAC, hi, hnr, get_max_val, hv0, AD5253_max, hgt]
    | ad5254 =>
      have hgt : v > 255 := by simpa [maxVal, get_max_val, hv0, AD5254_max] using hvv
      simp [write_RDAC, hi, hnr, get_max_val, hv0, AD5254_max, hgt]
  · have hnr : ¬ r > max_RDAC_register := by omega
    cases hv0 : h.variant with
    | base => exact absurd hv0 hv
    | ad5253 =>
      have hnv : ¬ v > 63 := by
        have := hvv
        simp [maxVal, get_max_val, hv0, AD5253_max] at this
        omega
      simp [write_RDAC, hi, hnr, get_max_val, hv0, AD5253_max, hnv, write_data]
    | ad5254 =>
      have hnv : ¬ v > 255 := by
        have := hvv
        simp [maxVal, get_max_val, hv0, AD5254_max] at this
        omega
      simp [write_RDAC, hi, hnr, get_max_val, hv0, AD5254_max, hnv, write_data]

/-- Witness for C4 on an initialized AD5253 handle. -/
theorem write_RDAC_spec_witness :
    ((write_RDAC okBus h5253i 4 0).ret = EC_BAD_REGISTER ∧
     (write_RDAC okBus h5253i 4 0).trace = []) ∧
    ((write_RDAC okBus h5253i 1 64).ret = EC_BAD_WIPER_SETTING ∧
     (write_RDAC okBus h5253i 1 64).trace = []) ∧
    ((write_RDAC okBus h5253i 1 63).trace =
        [Txn.write h5253i.dev_addr [RDAC_register ||| 1, 63]] ∧
     (write_RDAC okBus h5253i 1 63).ret =
        okBus.writeErr h5253i.dev_addr [RDAC_register ||| 1, 63] ∧
     (write_RDAC okBus h5253i 1 63).handle.err_code = (write_RDAC okBus h5253i 1 63).ret) :=
  ⟨(write_RDAC_spec okBus h5253i 4 0 (by decide) (by decide)).1 (by decide),
   (write_RDAC_spec okBus h5253i 1 64 (by decide) (by decide)).2.1 (by decide) (by decide),
   (write_RDAC_spec okBus h5253i 1 63 (by decide) (by decide)).2.2 (by decide) (by decide)⟩

/-- Claim C8 counterexample: a successful `initialize` does not clear the
stored error.  Starting from a fresh handle, `initialize 4` fails and stores
`EC_BAD_DEVICE_ADDR`; the following `initialize 0` succeeds (returns 0) yet
`err_code` still holds the stale nonzero value, where the claim demands 0. -/
theorem initDevice_success_keeps_stale_error :
    (initDevice (initDevice h5253 4).handle 0).ret = 0 ∧
    (initDevice (initDevice h5253 4).handle 0).handle.initialized = true ∧
    (initDevice (initDevice h5253 4).handle 0).handle.err_code ≠ 0 := by
  decide

/-- Claim C6: every public operation invoked on an uninitialized handle
stores `EC_NOT_INITIALIZED` (10) and issues no bus transaction; and any
operation whose local validation (initialization, index bound, value bound,
implemented capability) fails issues no bus transaction at all. -/
theorem op_validation_gates_transport (bus : I2CBus) (op : Op) (h : Handle) :
    (h.initialized = false →
      (runOp bus op h).1.err_code = EC_NOT_INITIALIZED ∧ (runOp bus op h).2 = []) ∧
    (¬ localValid op h → (runOp bus op h).2 = []) := by
  refine ⟨runOp_uninit bus op h, fun hnv => ?_⟩
  by_cases hi : h.initialized = true
  case neg =>
    have hf : h.initialized = false := by
      cases hb : h.initialized
      · rfl
      · exact absurd hb hi
    exact (runOp_uninit bus op h hf).2
  case pos =>
    cases op with
    | wRDAC r v =>
      simp only [localValid, hi, true_and] at hnv
      by_cases hr : r ≤ max_RDAC_register
      · cases hv0 : h.variant with
        | base => simp [runOp, write_RDAC, hi, Nat.not_lt.mpr hr, get_max_val, hv0]
        | ad5253 =>
          by_cases hvv : v > 63
          · simp [runOp, write_RDAC, hi, Nat.not_lt.mpr hr, get_max_val, hv0,
              AD5253_max, hvv]
          · exact absurd ⟨hr, by simp [maxVal, get_max_val, hv0, AD5253_max],
              by simp only [maxVal, get_max_val, hv0, AD5253_max]; omega⟩ hnv
        | ad5254 =>
          by_cases hvv : v > 255
          · simp [runOp, write_RDAC, hi, Nat.not_lt.mpr hr, get_max_val, hv0,
              AD5254_max, hvv]
          · exact absurd ⟨hr, by simp [maxVal, get_max_val, hv0, AD5254_max],
              by simp only [maxVal, get_max_val, hv0, AD5254_max]; omega⟩ hnv
      · simp [runOp, write_RDAC, hi, Nat.not_le.mp hr]
    | rRDAC r =>
      simp only [localValid, hi, true_and] at hnv
      simp [runOp, read_RDAC, hi, Nat.not_le.mp hnv]
    | wEEMEM r v =>
      simp only [localValid, hi, true_and] at hnv
      cases hv0 : h.variant with
      | base => simp [runOp, write_EEMEM, hi, get_max_val, hv0]
      | ad5253 =>
        by_cases hs : r ≤ max_RDAC_register ∧ v < 63
        · simp [runOp, write_EEMEM, hi, get_max_val, hv0, AD5253_max, hs]
        · by_cases hreg : r ≤ max_EEMEM_register
          · exact absurd ⟨by simp [maxVal, get_max_val, hv0, AD5253_max],
              by simpa [maxVal, get_max_val, hv0, AD5253_max] using hs, hreg⟩ hnv
          · simp [runOp, write_EEMEM, hi, get_max_val, hv0, AD5253_max, hs,
              Nat.not_le.mp hreg]
      | ad5254 =>
        by_cases hs : r ≤ max_RDAC_register ∧ v < 255
        · simp [runOp, write_EEMEM, hi, get_max_val, hv0, AD5254_max, hs]
        · by_cases hreg : r ≤ max_EEMEM_register
          · exact absurd ⟨by simp [maxVal, get_max_val, hv0, AD5254_max],
              by simpa [maxVal, get_max_val, hv0, AD5254_max] using hs, hreg⟩ hnv
          · simp [runOp, write_EEMEM, hi, get_max_val, hv0, AD5254_max, hs,
              Nat.not_le.mp hreg]
    | rEEMEM r =>
      simp only [localValid, hi, true_and] at hnv
      simp [runOp, read_EEMEM, hi, Nat.not_le.mp hnv]
    | rTol r =>
      simp only [localValid, hi, true_and] at hnv
      simp [runOp, read_tolerance, hi, Nat.not_le.mp hnv]
    | reset => exact absurd ⟨hi, trivial⟩ hnv
    | restore r =>
      simp only [localValid, hi, true_and] at hnv
      simp [runOp, restore_RDAC, hi, Nat.not_le.mp hnv]
    | restoreAll => exact absurd ⟨hi, trivial⟩ hnv
    | store r =>
      simp only [localValid, hi, true_and] at hnv
      simp [runOp, store_RDAC, hi, Nat.not_le.mp hnv]
    | decStep r =>
      simp only [localValid, hi, true_and] at hnv
      simp [runOp, decrement_RDAC, hi, Nat.not_le.mp hnv]
    | incStep r =>
      simp only [localValid, hi, true_and] at hnv
      simp [runOp, increment_RDAC, hi, Nat.not_le.mp hnv]
    | dec6dB r =>
      simp only [localValid, hi, true_and] at hnv
      simp [runOp, decrement_RDAC_6dB, hi, Nat.not_le.mp hnv]
    | inc6dB r =>
      simp only [localValid, hi, true_and] at hnv
      simp [runOp, increment_RDAC_6dB, hi, Nat.not_le.mp hnv]
    | decStepAll => exact absurd ⟨hi, trivial⟩ hnv
    | incStepAll => exact absurd ⟨hi, trivial⟩ hnv
    | dec6dBAll => exact absurd ⟨hi, trivial⟩ hnv
    | inc6dBAll => exact absurd ⟨hi, trivial⟩ hnv

/-- Witness for C6: a read on an uninitialized handle, and an out-of-range
index on an initialized one. -/
theorem op_validation_gates_transport_witness :
    ((runOp okBus (Op.rRDAC 0) h5253).1.err_code = EC_NOT_INITIALIZED ∧
     (runOp okBus (Op.rRDAC 0) h5253).2 = []) ∧
    (runOp okBus (Op.rRDAC 9) h5253i).2 = [] :=
  ⟨(op_validation_gates_transport okBus (Op.rRDAC 0) h5253).1 (by decide),
   (op_validation_gates_transport okBus (Op.rRDAC 9) h5253i).2
     (fun hc => absurd hc.2 (by decide))⟩

/-- Claim C8 (amended): every public operation other than `initialize`
overwrites `last_error` — its entire result is independent of the previously
stored error code — and, when its validation passes and all its transport
transactions succeed, it leaves `last_error` at `EC_NO_ERR` (0); a failed
`initialize` stores `EC_BAD_DEVICE_ADDR`, but a successful `initialize`
returns 0 while leaving `last_error` unchanged instead of clearing it. -/
theorem op_error_state_policy (bus : I2CBus) (h : Handle) (e s : Nat) (op : Op) :
    (s ≤ max_AD_addr →
      (initDevice h s).ret = 0 ∧ (initDevice h s).handle.err_code = h.err_code) ∧
    (s > max_AD_addr →
      (initDevice h s).handle.err_code = EC_BAD_DEVICE_ADDR) ∧
    (runOp bus op { h with err_code := e } = runOp bus op h) ∧
    ((∀ a bs, bus.writeErr a bs = 0) →
      (∀ reg, (bus.requestBytes reg 1).length = 1) →
      (∀ reg len, bus.requestErr reg len = 0) →
      localValid op h → (runOp bus op h).1.err_code = EC_NO_ERR) := by
  refine ⟨?_, ?_, ?_, ?_⟩
  · intro hs
    have hns : ¬ s > max_AD_addr := by omega
    simp [initDevice, hns]
  · intro hs
    simp [initDevice, hs]
  · rcases h with ⟨hv, hd, he0, hi0⟩
    cases op <;> cases hv <;> rfl
  · intro hw hrb hre hval
    obtain ⟨hi, hrest⟩ := hval
    cases op with
    | wRDAC r v =>
      obtain ⟨hr, hm, hv⟩ := hrest
      have hnr : ¬ r > max_RDAC_register := by omega
      cases hv0 : h.variant with
      | base => exact absurd (by simp [maxVal, get_max_val, hv0]) hm
      | ad5253 =>
        have hnv : ¬ v > 63 := by
          simp only [maxVal, get_max_val, hv0, AD5253_max] at hv; omega
        simp [runOp, write_RDAC, hi, hnr, get_max_val, hv0, AD5253_max, hnv,
          write_data, hw, EC_NO_ERR]
      | ad5254 =>
        have hnv : ¬ v > 255 := by
          simp only [maxVal, get_max_val, hv0, AD5254_max] at hv; omega
        simp [runOp, write_RDAC, hi, hnr, get_max_val, hv0, AD5254_max, hnv,
          write_data, hw, EC_NO_ERR]
    | rRDAC r =>
      have hnr : ¬ r > max_RDAC_register := by omega
      simp [runOp, read_RDAC, hi, hnr, read_data_byte, read_data, hw, hrb, hre,
        EC_NO_ERR]
    | wEEMEM r v =>
      obtain ⟨hm, hs', hreg⟩ := hrest
      have hnreg : ¬ r > max_EEMEM_register := by omega
      cases hv0 : h.variant with
      | base => exact absurd (by simp [maxVal, get_max_val, hv0]) hm
      | ad5253 =>
        have hs53 : ¬ (r ≤ max_RDAC_register ∧ v < 63) := by
          simpa [maxVal, get_max_val, hv0, AD5253_max] using hs'
        simp [runOp, write_EEMEM, hi, get_max_val, hv0, AD5253_max, hs53, hnreg,
          write_data, hw, EC_NO_ERR]
      | ad5254 =>
        have hs54 : ¬ (r ≤ max_RDAC_register ∧ v < 255) := by
          simpa [maxVal, get_max_val, hv0, AD5254_max] using hs'
        simp [runOp, write_EEMEM, hi, get_max_val, hv0, AD5254_max, hs54, hnreg,
          write_data, hw, EC_NO_ERR]
    | rEEMEM r =>
      have hnr : ¬ r > max_EEMEM_register := by omega
      simp [runOp, read_EEMEM, hi, hnr, read_data_byte, read_data, hw, hrb, hre,
        EC_NO_ERR]
    | rTol r =>
      have hnr : ¬ r > max_RDAC_register := by omega
      simp [runOp, read_tolerance, hi, hnr, read_data_byte, read_data, hw, hrb, hre,
        EC_NO_ERR]
    | reset => simp [runOp, reset_device, hi, write_cmd, hw, EC_NO_ERR]
    | restore r =>
      have hnr : ¬ r > max_RDAC_register := by omega
      simp [runOp, restore_RDAC, hi, hnr, write_cmd, hw, EC_NO_ERR]
    | restoreAll => simp [runOp, restore_all_RDAC, hi, write_cmd, hw, EC_NO_ERR]
    | store r =>
      have hnr : ¬ r > max_RDAC_register := by omega
      simp [runOp, store_RDAC, hi, hnr, write_cmd, hw, EC_NO_ERR]
    | decStep r =>
      have hnr : ¬ r > max_RDAC_register := by omega
      simp [runOp, decrement_RDAC, hi, hnr, write_cmd, hw, EC_NO_ERR]
    | incStep r =>
      have hnr : ¬ r > max_RDAC_register := by omega
      simp [runOp, increment_RDAC, hi, hnr, write_cmd, hw, EC_NO_ERR]
    | dec6dB r =>
      have hnr : ¬ r > max_RDAC_register := by omega
      simp [runOp, decrement_RDAC_6dB, hi, hnr, write_cmd, hw, EC_NO_ERR]
    | inc6dB r =>
      have hnr : ¬ r > max_RDAC_register := by omega
      simp [runOp, increment_RDAC_6dB, hi, hnr, write_cmd, hw, EC_NO_ERR]
    | decStepAll => simp [runOp, decrement_all_RDAC, hi, write_cmd, hw, EC_NO_ERR]
    | incStepAll => simp [runOp, increment_all_RDAC, hi, write_cmd, hw, EC_NO_ERR]
    | dec6dBAll => simp [runOp, decrement_all_RDAC_6dB, hi, write_cmd, hw, EC_NO_ERR]
    | inc6dBAll => simp [runOp, increment_all_RDAC_6dB, hi, write_cmd, hw, EC_NO_ERR]

/-- Witness for the amended C8: both initialize outcomes, the stored-error
independence of a wiper write, and its success on the all-success transport. -/
theorem op_error_state_policy_witness :
    ((initDevice h5253 1).ret = 0 ∧
      (initDevice h5253 1).handle.err_code = h5253.err_code) ∧
    (initDevice h5253 4).handle.err_code = EC_BAD_DEVICE_ADDR ∧
    (runOp okBus (Op.wRDAC 0 5) { h5253i with err_code := 99 } =
      runOp okBus (Op.wRDAC 0 5) h5253i) ∧
    (runOp okBus (Op.wRDAC 0 5) h5253i).1.err_code = EC_NO_ERR :=
  ⟨(op_error_state_policy okBus h5253 99 1 (Op.wRDAC 0 5)).1 (by decide),
   (op_error_state_policy okBus h5253 99 4 (Op.wRDAC 0 5)).2.1 (by decide),
   (op_error_state_policy okBus h5253i 99 1 (Op.wRDAC 0 5)).2.2.1,
   (op_error_state_policy okBus h5253i 99 1 (Op.wRDAC 0 5)).2.2.2
     (fun _ _ => rfl) (fun _ => rfl) (fun _ _ => rfl)
     ⟨by decide, by decide, by decide, by decide⟩⟩

/-- Claim C3: on an initialized handle, when both tolerance reads for an
index in [0,3] succeed with integer byte `I` and fractional byte `F`,
`read_tolerance` returns `s` plus, for each set bit of `F` at position `i`
counted from the high bit, `2 ^ (-(i+1))`, where `s` is the low 7 bits of `I`
negated when bit `0x80` of `I` is set (`tolSpecValue`); in particular
`I = 0x05, F = 0x80` decodes to `5.5` and `I = 0x85, F = 0x00` to `-5.0`. -/
theorem read_tolerance_decode_spec (bus : I2CBus) (h : Handle) (RDAC I F : Nat)
    (hi : h.initialized = true) (hr : RDAC ≤ max_RDAC_register)
    (ha : bus.writeErr h.dev_addr [Tolerance_register ||| (RDAC <<< 1) ||| Tol_int] = 0)
    (hb : bus.requestBytes (Tolerance_register ||| (RDAC <<< 1) ||| Tol_int) 1 = [I])
    (hc : bus.requestErr (Tolerance_register ||| (RDAC <<< 1) ||| Tol_int) 1 = 0)
    (hd : bus.writeErr h.dev_addr [Tolerance_register ||| (RDAC <<< 1) ||| Tol_dec] = 0)
    (he : bus.requestBytes (Tolerance_register ||| (RDAC <<< 1) ||| Tol_dec) 1 = [F])
    (hf : bus.requestErr (Tolerance_register ||| (RDAC <<< 1) ||| Tol_dec) 1 = 0) :
    (read_tolerance bus h RDAC).ret = tolSpecValue I F ∧
    tolDecode 0x05 0x80 = 11 / 2 ∧ tolDecode 0x85 0x00 = -5 := by
  refine ⟨?_, ?_, ?_⟩
  · have hnr : ¬ RDAC > max_RDAC_register := by omega
    simp [read_tolerance, hi, hnr, read_data_byte, read_data, ha, hb, hc, hd, he, hf,
      tolDecode_eq_spec]
  · rw [tolDecode_eq_spec]
    norm_num [tolSpecValue, Finset.sum_range_succ, Finset.sum_range_zero,
      show Nat.testBit 5 7 = false by decide,
      show Nat.testBit 128 7 = true by decide, show Nat.testBit 128 6 = false by decide,
      show Nat.testBit 128 5 = false by decide, show Nat.testBit 128 4 = false by decide,
      show Nat.testBit 128 3 = false by decide, show Nat.testBit 128 2 = false by decide,
      show Nat.testBit 128 1 = false by decide, show Nat.testBit 128 0 = false by decide]
  · rw [tolDecode_eq_spec]
    norm_num [tolSpecValue, Finset.sum_range_succ, Finset.sum_range_zero,
      show Nat.testBit 133 7 = true by decide, show Nat.testBit 0 7 = false by decide,
      show Nat.testBit 0 6 = false by decide, show Nat.testBit 0 5 = false by decide,
      show Nat.testBit 0 4 = false by decide, show Nat.testBit 0 3 = false by decide,
      show Nat.testBit 0 2 = false by decide, show Nat.testBit 0 1 = false by decide,
      show Nat.testBit 0 0 = false by decide]

/-- Witness for C3 on the concrete tolerance transport (bytes 0x05, 0x80 at
wiper index 0). -/
theorem read_tolerance_decode_spec_witness :
    (read_tolerance tolBus h5253i 0).ret = tolSpecValue 5 128 ∧
    tolDecode 0x05 0x80 = 11 / 2 ∧ tolDecode 0x85 0x00 = -5 :=
  read_tolerance_decode_spec tolBus h5253i 0 5 128 (by decide) (by decide) (by decide)
    (by decide) (by decide) (by decide) (by decide) (by decide)
